import Mathlib

/-!
# Smux configuration and constructors (`lib/smux/mux.go`)

A shallow embedding of `Config`, `DefaultConfig`, `VerifyConfig`, `Server` and
`Client`.

* `time.Duration` is a signed 64-bit count of nanoseconds and `int` a signed
  machine integer.  The code only compares these values with each other and
  with constants, so no arithmetic can overflow; the fields are integers and
  `Config.representable` says that a record fits the machine types.
* A `*Config` is `Option Config`: `none` is the nil pointer.
* An `error` is `Option String`: `none` is the nil error, `some msg` is
  `errors.New(msg)`.
* Dereferencing a nil pointer panics; `Outcome.panic` records that.
-/

namespace Smux

/-- The `Config` struct: the tuning knobs of a session. -/
structure Config where
  /-- Field `KeepAliveInterval time.Duration`, in nanoseconds. -/
  KeepAliveInterval : Int
  /-- Field `KeepAliveIntervalMax time.Duration`, in nanoseconds. -/
  KeepAliveIntervalMax : Int
  /-- Field `KeepAliveTimeout time.Duration`, in nanoseconds. -/
  KeepAliveTimeout : Int
  /-- Field `MaxFrameSize int`. -/
  MaxFrameSize : Int
  /-- Field `MaxReceiveBuffer int`. -/
  MaxReceiveBuffer : Int
  /-- Field `EnableStreamBuffer bool`. -/
  EnableStreamBuffer : Bool
  /-- Field `MaxStreamBuffer int`. -/
  MaxStreamBuffer : Int
  /-- Field `BoostTimeout time.Duration`, in nanoseconds. -/
  BoostTimeout : Int
  deriving DecidableEq, Repr

/-- Range of a signed 64-bit integer (`time.Duration`, and `int` on 64-bit targets). -/
def inInt64 (x : Int) : Prop := -(2 : Int) ^ 63 ≤ x ∧ x < (2 : Int) ^ 63

instance (x : Int) : Decidable (inInt64 x) := by
  unfold inInt64; infer_instance

/-- Every field of the record fits its machine type. -/
def Config.representable (c : Config) : Prop :=
  inInt64 c.KeepAliveInterval ∧ inInt64 c.KeepAliveIntervalMax ∧
  inInt64 c.KeepAliveTimeout ∧ inInt64 c.MaxFrameSize ∧
  inInt64 c.MaxReceiveBuffer ∧ inInt64 c.MaxStreamBuffer ∧ inInt64 c.BoostTimeout

instance (c : Config) : Decidable c.representable := by
  unfold Config.representable; infer_instance

/-- Constant `time.Millisecond`, in nanoseconds. -/
def Millisecond : Int := 1000000

/-- Constant `time.Second`, in nanoseconds. -/
def Second : Int := 1000 * Millisecond

/-- Result of a Go call: it either panics or returns a value. -/
inductive Outcome (α : Type) where
  | panic : Outcome α
  | ok : α → Outcome α
  deriving DecidableEq, Repr

/-- `DefaultConfig` returns a pointer to this freshly built record. -/
def DefaultConfig : Config :=
  { KeepAliveInterval := 20 * Second
    KeepAliveIntervalMax := 30 * Second
    KeepAliveTimeout := 5500 * Millisecond
    MaxFrameSize := 4096
    MaxReceiveBuffer := 16 * 1024 * 1024
    EnableStreamBuffer := true
    MaxStreamBuffer := 1024 * 1024
    BoostTimeout := 10 * Second }

/-- `VerifyConfig(config *Config) error`: the checks run in source order and the
first one that fires returns its error; reading a field of a nil `config`
panics. -/
def VerifyConfig (config : Option Config) : Outcome (Option String) :=
  match config with
  | none => Outcome.panic
  | some config =>
    if config.KeepAliveInterval = 0 then
      Outcome.ok (some "keep-alive interval must be positive")
    else if config.KeepAliveIntervalMax < config.KeepAliveInterval then
      Outcome.ok (some "KeepAliveIntervalMax < KeepAliveInterval")
    else if config.KeepAliveInterval ≤ config.KeepAliveTimeout then
      Outcome.ok (some "KeepAliveInterval <= KeepAliveTimeout")
    else if config.MaxFrameSize ≤ 0 then
      Outcome.ok (some "max frame size must be positive")
    else if config.MaxFrameSize > 65535 then
      Outcome.ok (some "max frame size must not be larger than 65535")
    else if config.MaxReceiveBuffer ≤ 0 then
      Outcome.ok (some "max receive buffer must be positive")
    else if config.MaxStreamBuffer ≤ 0 then
      Outcome.ok (some "max stream receive buffer must be positive")
    else
      Outcome.ok none

/-- `Server(conn, config) (*Session, error)`.  `newSession` is defined elsewhere
in the package and is a parameter here; the returned pair is the session
pointer (`none` is nil) and the error. -/
def Server {Session Conn : Type} (newSession : Option Config → Conn → Bool → Session)
    (conn : Conn) (config : Option Config) : Outcome (Option Session × Option String) :=
  let config := if config = none then some DefaultConfig else config
  match VerifyConfig config with
  | Outcome.panic => Outcome.panic
  | Outcome.ok (some err) => Outcome.ok (none, some err)
  | Outcome.ok none => Outcome.ok (some (newSession config conn false), none)

/-- `Client(conn, config) (*Session, error)`: as `Server`, with the client flag set. -/
def Client {Session Conn : Type} (newSession : Option Config → Conn → Bool → Session)
    (conn : Conn) (config : Option Config) : Outcome (Option Session × Option String) :=
  let config := if config = none then some DefaultConfig else config
  match VerifyConfig config with
  | Outcome.panic => Outcome.panic
  | Outcome.ok (some err) => Outcome.ok (none, some err)
  | Outcome.ok none => Outcome.ok (some (newSession config conn true), none)

/-- A record with a negative keep-alive interval that passes every check. -/
def negativeIntervalConfig : Config :=
  { KeepAliveInterval := -1
    KeepAliveIntervalMax := 0
    KeepAliveTimeout := -2
    MaxFrameSize := 4096
    MaxReceiveBuffer := 4194304
    EnableStreamBuffer := true
    MaxStreamBuffer := 65536
    BoostTimeout := 0 }

/-- Default record with the boost window set to minus one nanosecond. -/
def negativeBoostConfig : Config :=
  { DefaultConfig with BoostTimeout := -1 }

/-- A record that breaks the keep-alive ordering: the timeout is above the interval. -/
def slowTimeoutConfig : Config :=
  { DefaultConfig with KeepAliveTimeout := 50 * Second }

/-- A record whose frame size does not fit sixteen bits. -/
def hugeFrameConfig : Config :=
  { DefaultConfig with MaxFrameSize := 65536 }

/-- A record with the per-stream cap at zero and per-stream buffering switched off. -/
def noStreamBufferConfig : Config :=
  { DefaultConfig with EnableStreamBuffer := false, MaxStreamBuffer := 0 }

/-- Session stand-in that records the arguments `newSession` was called with. -/
def recordSession (config : Option Config) (conn : Nat) (client : Bool) :
    Option Config × Nat × Bool :=
  (config, conn, client)

/-- The seven checks in their fixed order, each paired with the message it
carries: the keep-alive interval equal to zero, the interval bound below the
interval, the interval not above the timeout, the frame size not positive, the
frame size above 65535, the receive buffer not positive, the stream buffer not
positive. -/
def orderedChecks : List ((Config → Bool) × String) :=
  [ (fun c => decide (c.KeepAliveInterval = 0), "keep-alive interval must be positive"),
    (fun c => decide (c.KeepAliveIntervalMax < c.KeepAliveInterval),
      "KeepAliveIntervalMax < KeepAliveInterval"),
    (fun c => decide (c.KeepAliveInterval ≤ c.KeepAliveTimeout),
      "KeepAliveInterval <= KeepAliveTimeout"),
    (fun c => decide (c.MaxFrameSize ≤ 0), "max frame size must be positive"),
    (fun c => decide (c.MaxFrameSize > 65535),
      "max frame size must not be larger than 65535"),
    (fun c => decide (c.MaxReceiveBuffer ≤ 0), "max receive buffer must be positive"),
    (fun c => decide (c.MaxStreamBuffer ≤ 0),
      "max stream receive buffer must be positive") ]

/-- Specification of the reported error over a table of checks: the message of
the earliest check of the table that the record violates, nil when it violates
none. -/
def firstViolation (checks : List ((Config → Bool) × String)) (c : Config) :
    Option String :=
  match checks with
  | [] => none
  | (violated, msg) :: rest =>
    if violated c = true then some msg else firstViolation rest c

/-- State-passing reading of the body of `VerifyConfig` on a non-nil pointer: the
record behind `config` when the call returns, paired with the returned error.
The body holds no assignment, so every return hands back the record it read. -/
def VerifyConfigState (config : Config) : Config × Option String :=
  if config.KeepAliveInterval = 0 then
    (config, some "keep-alive interval must be positive")
  else if config.KeepAliveIntervalMax < config.KeepAliveInterval then
    (config, some "KeepAliveIntervalMax < KeepAliveInterval")
  else if config.KeepAliveInterval ≤ config.KeepAliveTimeout then
    (config, some "KeepAliveInterval <= KeepAliveTimeout")
  else if config.MaxFrameSize ≤ 0 then
    (config, some "max frame size must be positive")
  else if config.MaxFrameSize > 65535 then
    (config, some "max frame size must not be larger than 65535")
  else if config.MaxReceiveBuffer ≤ 0 then
    (config, some "max receive buffer must be positive")
  else if config.MaxStreamBuffer ≤ 0 then
    (config, some "max stream receive buffer must be positive")
  else
    (config, none)

/-- A record that violates the fourth, the sixth and the last check at once and
none of the first three. -/
def manyViolationsConfig : Config :=
  { DefaultConfig with MaxFrameSize := 0, MaxReceiveBuffer := 0, MaxStreamBuffer := -3 }

/-- The record `hugeFrameConfig` with the stream-buffer switch and the boost
window changed. -/
def hugeFrameOtherKnobs : Config :=
  { hugeFrameConfig with EnableStreamBuffer := false, BoostTimeout := -7 }

/-! ## Auxiliary facts about `VerifyConfig` -/

/-- On a non-nil pointer `VerifyConfig` returns nil exactly when no check fires. -/
theorem verify_nil_iff (c : Config) :
    VerifyConfig (some c) = Outcome.ok none ↔
      c.KeepAliveInterval ≠ 0 ∧ c.KeepAliveInterval ≤ c.KeepAliveIntervalMax ∧
      c.KeepAliveTimeout < c.KeepAliveInterval ∧ 0 < c.MaxFrameSize ∧
      c.MaxFrameSize ≤ 65535 ∧ 0 < c.MaxReceiveBuffer ∧ 0 < c.MaxStreamBuffer := by
  simp only [VerifyConfig]
  constructor
  · intro h
    split_ifs at h <;>
      first
      | (refine ⟨?_, ?_, ?_, ?_, ?_, ?_, ?_⟩ <;> omega)
      | simp at h
  · rintro ⟨h1, h2, h3, h4, h5, h6, h7⟩
    rw [if_neg h1, if_neg (by omega), if_neg (by omega), if_neg (by omega),
      if_neg (by omega), if_neg (by omega), if_neg (by omega)]

/-- On a non-nil pointer `VerifyConfig` never panics: it returns nil or an error. -/
theorem verify_returns (c : Config) :
    VerifyConfig (some c) = Outcome.ok none ∨
      ∃ e, VerifyConfig (some c) = Outcome.ok (some e) := by
  simp only [VerifyConfig]
  split_ifs <;> simp

/-- On a non-nil pointer `VerifyConfig` returns an error exactly when some check fires. -/
theorem verify_error_iff (c : Config) :
    (∃ e, VerifyConfig (some c) = Outcome.ok (some e)) ↔
      (c.KeepAliveInterval = 0 ∨ c.KeepAliveIntervalMax < c.KeepAliveInterval ∨
       c.KeepAliveInterval ≤ c.KeepAliveTimeout ∨ c.MaxFrameSize ≤ 0 ∨
       65535 < c.MaxFrameSize ∨ c.MaxReceiveBuffer ≤ 0 ∨ c.MaxStreamBuffer ≤ 0) := by
  constructor
  · rintro ⟨e, he⟩
    by_contra hno
    have hnil : VerifyConfig (some c) = Outcome.ok none :=
      (verify_nil_iff c).2 (by
        refine ⟨?_, ?_, ?_, ?_, ?_, ?_, ?_⟩ <;> omega)
    rw [hnil] at he
    exact absurd he (by simp)
  · intro hbad
    rcases verify_returns c with hnil | herr
    · have := (verify_nil_iff c).1 hnil
      omega
    · exact herr

/-- The message `firstViolation` returns belongs to a violated check of the table
that has no violated check before it, and every such check is reported. -/
theorem firstViolation_eq_some_iff (c : Config)
    (checks : List ((Config → Bool) × String)) (m : String) :
    firstViolation checks c = some m ↔
      ∃ (i : Nat) (p : Config → Bool), checks[i]? = some (p, m) ∧ p c = true ∧
        ∀ (j : Nat) (q : Config → Bool) (n : String),
          j < i → checks[j]? = some (q, n) → q c = false := by
  induction checks with
  | nil => simp [firstViolation]
  | cons hd tl ih =>
    obtain ⟨p0, m0⟩ := hd
    by_cases hp : p0 c = true
    · rw [firstViolation, if_pos hp]
      constructor
      · intro h
        injection h with h
        subst h
        exact ⟨0, p0, by simp, hp, fun j q n hj _ => absurd hj (Nat.not_lt_zero j)⟩
      · rintro ⟨i, p, hi, _, hearlier⟩
        cases i with
        | zero =>
          simp only [List.getElem?_cons_zero, Option.some.injEq, Prod.mk.injEq] at hi
          rw [hi.2]
        | succ k =>
          have hfalse := hearlier 0 p0 m0 (Nat.succ_pos k) (by simp)
          rw [hp] at hfalse
          cases hfalse
    · rw [firstViolation, if_neg hp]
      rw [ih]
      constructor
      · rintro ⟨i, p, hi, hpc, he⟩
        refine ⟨i + 1, p, by simpa using hi, hpc, ?_⟩
        intro j q n hj hjq
        cases j with
        | zero =>
          simp only [List.getElem?_cons_zero, Option.some.injEq, Prod.mk.injEq] at hjq
          obtain ⟨rfl, rfl⟩ := hjq
          simpa using hp
        | succ k => exact he k q n (by omega) (by simpa using hjq)
      · rintro ⟨i, p, hi, hpc, he⟩
        cases i with
        | zero =>
          simp only [List.getElem?_cons_zero, Option.some.injEq, Prod.mk.injEq] at hi
          obtain ⟨rfl, rfl⟩ := hi
          exact absurd hpc hp
        | succ k =>
          exact ⟨k, p, by simpa using hi, hpc,
            fun j q n hj hjq => he (j + 1) q n (by omega) (by simpa using hjq)⟩

/-- No check of the table is violated exactly when `firstViolation` returns nil. -/
theorem firstViolation_eq_none_iff (c : Config)
    (checks : List ((Config → Bool) × String)) :
    firstViolation checks c = none ↔ ∀ p ∈ checks, p.1 c = false := by
  induction checks with
  | nil => simp [firstViolation]
  | cons hd tl ih =>
    obtain ⟨p0, m0⟩ := hd
    by_cases hp : p0 c = true
    · simp [firstViolation, hp]
    · rw [firstViolation, if_neg hp]
      rw [ih]
      simp only [List.mem_cons, forall_eq_or_imp]
      constructor
      · intro h
        exact ⟨by simpa using hp, h⟩
      · intro h
        exact h.2

/-- The if-chain of `VerifyConfig` computes `firstViolation` over `orderedChecks`. -/
theorem verify_eq_firstViolation (c : Config) :
    VerifyConfig (some c) = Outcome.ok (firstViolation orderedChecks c) := by
  simp only [VerifyConfig, orderedChecks, firstViolation, decide_eq_true_eq]
  split_ifs <;> rfl

/-- The messages of `orderedChecks` are pairwise different. -/
theorem orderedChecks_messages_nodup : (orderedChecks.map Prod.snd).Nodup := by
  decide

/-- A message of `orderedChecks` sits at one position only, so it names one check. -/
theorem orderedChecks_own_check {i j : Nat} {p q : Config → Bool} {m : String}
    (hi : orderedChecks[i]? = some (p, m)) (hj : orderedChecks[j]? = some (q, m)) :
    i = j ∧ p = q := by
  have hmi : (orderedChecks.map Prod.snd)[i]? = some m := by
    simp [List.getElem?_map, hi]
  have hmj : (orderedChecks.map Prod.snd)[j]? = some m := by
    simp [List.getElem?_map, hj]
  have hli : i < (orderedChecks.map Prod.snd).length := by
    by_contra h
    rw [List.getElem?_eq_none (by omega)] at hmi
    cases hmi
  have hlj : j < (orderedChecks.map Prod.snd).length := by
    by_contra h
    rw [List.getElem?_eq_none (by omega)] at hmj
    cases hmj
  have hij : i = j := by
    rcases lt_trichotomy i j with h | h | h
    · exact absurd (hmi.trans hmj.symm)
        (List.nodup_iff_getElem?_ne_getElem?.1 orderedChecks_messages_nodup i j h hlj)
    · exact h
    · exact absurd (hmj.trans hmi.symm)
        (List.nodup_iff_getElem?_ne_getElem?.1 orderedChecks_messages_nodup j i h hli)
  subst hij
  rw [hi] at hj
  simp only [Option.some.injEq, Prod.mk.injEq, and_true] at hj
  exact ⟨rfl, hj⟩

/-! ## Claims -/

/-- C1 (evaluation of the code at a failing input): the record
`negativeIntervalConfig` fits the machine types and has a keep-alive interval of
minus one nanosecond, which is not positive, yet `VerifyConfig` returns the nil
error on it: the first check compares the interval with zero only. -/
theorem C1_negative_interval_accepted :
    negativeIntervalConfig.representable ∧
      negativeIntervalConfig.KeepAliveInterval ≤ 0 ∧
      VerifyConfig (some negativeIntervalConfig) = Outcome.ok none := by
  decide

/-- C2: a record accepted by `VerifyConfig` satisfies
`KeepAliveTimeout < KeepAliveInterval ≤ KeepAliveIntervalMax`; equivalently a
record with `KeepAliveIntervalMax < KeepAliveInterval` or
`KeepAliveInterval ≤ KeepAliveTimeout` makes `VerifyConfig` return a non-nil error. -/
theorem C2_keepalive_ordering (c : Config) :
    (VerifyConfig (some c) = Outcome.ok none →
      c.KeepAliveTimeout < c.KeepAliveInterval ∧
      c.KeepAliveInterval ≤ c.KeepAliveIntervalMax) ∧
    (c.KeepAliveIntervalMax < c.KeepAliveInterval ∨
      c.KeepAliveInterval ≤ c.KeepAliveTimeout →
      ∃ e, VerifyConfig (some c) = Outcome.ok (some e)) := by
  constructor
  · intro h
    have := (verify_nil_iff c).1 h
    omega
  · intro h
    exact (verify_error_iff c).2 (by omega)

/-- C2 at concrete records: the default record is accepted and ordered, and
`slowTimeoutConfig` (timeout 50s, interval 20s) is rejected. -/
theorem C2_keepalive_ordering_witness :
    (VerifyConfig (some DefaultConfig) = Outcome.ok none ∧
      DefaultConfig.KeepAliveTimeout < DefaultConfig.KeepAliveInterval ∧
      DefaultConfig.KeepAliveInterval ≤ DefaultConfig.KeepAliveIntervalMax) ∧
    (slowTimeoutConfig.KeepAliveInterval ≤ slowTimeoutConfig.KeepAliveTimeout ∧
      ∃ e, VerifyConfig (some slowTimeoutConfig) = Outcome.ok (some e)) :=
  ⟨⟨by decide, (C2_keepalive_ordering DefaultConfig).1 (by decide)⟩,
   ⟨by decide, (C2_keepalive_ordering slowTimeoutConfig).2 (Or.inr (by decide))⟩⟩

/-- C3: a record accepted by `VerifyConfig` has `0 < MaxFrameSize ≤ 65535`, so the
bound is below `2 ^ 16` and fits the unsigned 16-bit length field; conversely a
record with `MaxFrameSize ≤ 0` or `MaxFrameSize > 65535` is rejected with a
non-nil error. -/
theorem C3_frame_size_bound (c : Config) :
    (VerifyConfig (some c) = Outcome.ok none →
      0 < c.MaxFrameSize ∧ c.MaxFrameSize ≤ 65535 ∧ c.MaxFrameSize < 2 ^ 16) ∧
    (c.MaxFrameSize ≤ 0 ∨ c.MaxFrameSize > 65535 →
      ∃ e, VerifyConfig (some c) = Outcome.ok (some e)) := by
  constructor
  · intro h
    have := (verify_nil_iff c).1 h
    norm_num
    omega
  · intro h
    exact (verify_error_iff c).2 (by omega)

/-- C3 at concrete records: the default record (frame size 4096) is accepted and
`hugeFrameConfig` (frame size 65536) is rejected. -/
theorem C3_frame_size_bound_witness :
    (VerifyConfig (some DefaultConfig) = Outcome.ok none ∧
      0 < DefaultConfig.MaxFrameSize ∧ DefaultConfig.MaxFrameSize ≤ 65535 ∧
      DefaultConfig.MaxFrameSize < 2 ^ 16) ∧
    (hugeFrameConfig.MaxFrameSize > 65535 ∧
      ∃ e, VerifyConfig (some hugeFrameConfig) = Outcome.ok (some e)) :=
  ⟨⟨by decide, (C3_frame_size_bound DefaultConfig).1 (by decide)⟩,
   ⟨by decide, (C3_frame_size_bound hugeFrameConfig).2 (Or.inr (by decide))⟩⟩

/-- C4: a record with `MaxReceiveBuffer ≤ 0` or `MaxStreamBuffer ≤ 0` makes
`VerifyConfig` return a non-nil error, whatever `EnableStreamBuffer` is set to
(the flag is overwritten with an arbitrary value `b`). -/
theorem C4_buffers_positive (c : Config) (b : Bool)
    (h : c.MaxReceiveBuffer ≤ 0 ∨ c.MaxStreamBuffer ≤ 0) :
    ∃ e, VerifyConfig (some { c with EnableStreamBuffer := b }) = Outcome.ok (some e) := by
  apply (verify_error_iff _).2
  dsimp only
  omega

/-- C4 at a concrete record: the default record with the stream cap at zero is
rejected with per-stream buffering switched off. -/
theorem C4_buffers_positive_witness :
    (noStreamBufferConfig.MaxReceiveBuffer ≤ 0 ∨ noStreamBufferConfig.MaxStreamBuffer ≤ 0) ∧
    ∃ e, VerifyConfig (some { noStreamBufferConfig with EnableStreamBuffer := false }) =
      Outcome.ok (some e) :=
  ⟨Or.inr (by decide), C4_buffers_positive noStreamBufferConfig false (Or.inr (by decide))⟩

/-- C5: a record that meets every documented option constraint is accepted:
`VerifyConfig` returns the nil error, for either value of `EnableStreamBuffer`. -/
theorem C5_no_false_rejection (c : Config)
    (hInterval : 0 < c.KeepAliveInterval)
    (hMax : c.KeepAliveIntervalMax ≥ c.KeepAliveInterval)
    (hTimeout : c.KeepAliveTimeout < c.KeepAliveInterval)
    (hFrame : 0 < c.MaxFrameSize ∧ c.MaxFrameSize ≤ 65535)
    (hReceive : 0 < c.MaxReceiveBuffer)
    (hStream : 0 < c.MaxStreamBuffer)
    (_hBoost : 0 ≤ c.BoostTimeout) :
    VerifyConfig (some c) = Outcome.ok none ∧
      VerifyConfig (some { c with EnableStreamBuffer := true }) = Outcome.ok none ∧
      VerifyConfig (some { c with EnableStreamBuffer := false }) = Outcome.ok none := by
  refine ⟨?_, ?_, ?_⟩ <;> apply (verify_nil_iff _).2 <;> dsimp only <;>
    (refine ⟨?_, ?_, ?_, ?_, ?_, ?_, ?_⟩ <;> omega)

/-- C5 at the default record. -/
theorem C5_no_false_rejection_witness :
    VerifyConfig (some DefaultConfig) = Outcome.ok none ∧
      VerifyConfig (some { DefaultConfig with EnableStreamBuffer := true }) = Outcome.ok none ∧
      VerifyConfig (some { DefaultConfig with EnableStreamBuffer := false }) = Outcome.ok none :=
  C5_no_false_rejection DefaultConfig (by decide) (by decide) (by decide)
    ⟨by decide, by decide⟩ (by decide) (by decide) (by decide)

/-- C6: `DefaultConfig` has interval 20s, interval bound 30s, timeout 5.5s (below
the interval), frame size 4096, receive buffer 16 MiB, stream buffer 1 MiB, and
`VerifyConfig` returns the nil error on it. -/
theorem C6_default_config :
    DefaultConfig.KeepAliveInterval = 20 * 1000000000 ∧
      DefaultConfig.KeepAliveIntervalMax = 30 * 1000000000 ∧
      2 * DefaultConfig.KeepAliveTimeout = 11 * 1000000000 ∧
      DefaultConfig.KeepAliveTimeout < DefaultConfig.KeepAliveInterval ∧
      DefaultConfig.MaxFrameSize = 4096 ∧
      DefaultConfig.MaxReceiveBuffer = 16 * 2 ^ 20 ∧
      DefaultConfig.MaxStreamBuffer = 2 ^ 20 ∧
      VerifyConfig (some DefaultConfig) = Outcome.ok none := by
  decide

/-- C7: for a non-nil `config`, `Server` and `Client` return either a session or
a configuration error, never both and never neither: if `VerifyConfig` returns
the error `e` the result is the nil session with `e`, whatever `newSession` is;
otherwise it is `newSession(config, conn, role)` with the nil error, on the
caller's own record; and one of these two cases always applies. -/
theorem C7_session_or_error {Session Conn : Type}
    (newSession : Option Config → Conn → Bool → Session) (conn : Conn) (c : Config) :
    (∀ e, VerifyConfig (some c) = Outcome.ok (some e) →
      Server newSession conn (some c) = Outcome.ok (none, some e) ∧
      Client newSession conn (some c) = Outcome.ok (none, some e)) ∧
    (VerifyConfig (some c) = Outcome.ok none →
      Server newSession conn (some c) =
        Outcome.ok (some (newSession (some c) conn false), none) ∧
      Client newSession conn (some c) =
        Outcome.ok (some (newSession (some c) conn true), none)) ∧
    ((∃ e, VerifyConfig (some c) = Outcome.ok (some e)) ∨
      VerifyConfig (some c) = Outcome.ok none) ∧
    (∃ s e, Server newSession conn (some c) = Outcome.ok (s, e) ∧ (s = none ↔ e ≠ none)) ∧
    (∃ s e, Client newSession conn (some c) = Outcome.ok (s, e) ∧ (s = none ↔ e ≠ none)) := by
  have hS : ∀ e, VerifyConfig (some c) = Outcome.ok (some e) →
      Server newSession conn (some c) = Outcome.ok (none, some e) ∧
      Client newSession conn (some c) = Outcome.ok (none, some e) := by
    intro e he
    simp [Server, Client, he]
  have hN : VerifyConfig (some c) = Outcome.ok none →
      Server newSession conn (some c) =
        Outcome.ok (some (newSession (some c) conn false), none) ∧
      Client newSession conn (some c) =
        Outcome.ok (some (newSession (some c) conn true), none) := by
    intro he
    simp [Server, Client, he]
  refine ⟨hS, hN, (verify_returns c).symm, ?_, ?_⟩
  · rcases verify_returns c with h | ⟨e, h⟩
    · exact ⟨_, _, (hN h).1, by simp⟩
    · exact ⟨_, _, (hS e h).1, by simp⟩
  · rcases verify_returns c with h | ⟨e, h⟩
    · exact ⟨_, _, (hN h).2, by simp⟩
    · exact ⟨_, _, (hS e h).2, by simp⟩

/-- C7 at concrete records: `hugeFrameConfig` yields the frame-size error and no
session, the default record yields a session recording the caller's record. -/
theorem C7_session_or_error_witness :
    (VerifyConfig (some hugeFrameConfig) =
        Outcome.ok (some "max frame size must not be larger than 65535") ∧
      Server recordSession 7 (some hugeFrameConfig) =
        Outcome.ok (none, some "max frame size must not be larger than 65535") ∧
      Client recordSession 7 (some hugeFrameConfig) =
        Outcome.ok (none, some "max frame size must not be larger than 65535")) ∧
    (VerifyConfig (some DefaultConfig) = Outcome.ok none ∧
      Server recordSession 7 (some DefaultConfig) =
        Outcome.ok (some (some DefaultConfig, 7, false), none) ∧
      Client recordSession 7 (some DefaultConfig) =
        Outcome.ok (some (some DefaultConfig, 7, true), none)) :=
  ⟨⟨by decide, (C7_session_or_error recordSession 7 hugeFrameConfig).1 _ (by decide)⟩,
   ⟨by decide, (C7_session_or_error recordSession 7 DefaultConfig).2.1 (by decide)⟩⟩

/-- C8: the role is the only difference between the constructors.  For every
`conn` and `config`, nil or not, with `eff` the pointer after the nil
replacement: either both fail with the same error, the one `VerifyConfig`
returns on `eff`, or both succeed with `newSession(eff, conn, flag)`, the flag
being false for `Server` and true for `Client`; and `Client` is `Server` run
with a `newSession` whose flag is negated. -/
theorem C8_role_only_difference {Session Conn : Type}
    (newSession : Option Config → Conn → Bool → Session) (conn : Conn)
    (config : Option Config) :
    ((∃ e, VerifyConfig (if config = none then some DefaultConfig else config) =
          Outcome.ok (some e) ∧
        Server newSession conn config = Outcome.ok (none, some e) ∧
        Client newSession conn config = Outcome.ok (none, some e)) ∨
      (VerifyConfig (if config = none then some DefaultConfig else config) =
          Outcome.ok none ∧
        Server newSession conn config = Outcome.ok
          (some (newSession (if config = none then some DefaultConfig else config)
            conn false), none) ∧
        Client newSession conn config = Outcome.ok
          (some (newSession (if config = none then some DefaultConfig else config)
            conn true), none))) ∧
    Client newSession conn config =
      Server (fun cfg k flag => newSession cfg k (!flag)) conn config := by
  constructor
  · cases config with
    | none =>
      right
      have h : VerifyConfig (some DefaultConfig) = Outcome.ok none := by decide
      simp [Server, Client, h]
    | some c =>
      rcases verify_returns c with h | ⟨e, h⟩
      · right
        simp [Server, Client, h]
      · left
        exact ⟨e, by simp [Server, Client, h]⟩
  · simp [Server, Client]

/-- C9 (counterexample): `negativeBoostConfig` fits the machine types and has a
boost window of minus one nanosecond, yet `VerifyConfig` returns the nil error on
it and both constructors turn it into a session. -/
theorem C9_negative_boost_accepted :
    negativeBoostConfig.representable ∧
      negativeBoostConfig.BoostTimeout < 0 ∧
      VerifyConfig (some negativeBoostConfig) = Outcome.ok none ∧
      Server recordSession 7 (some negativeBoostConfig) =
        Outcome.ok (some (some negativeBoostConfig, 7, false), none) ∧
      Client recordSession 7 (some negativeBoostConfig) =
        Outcome.ok (some (some negativeBoostConfig, 7, true), none) :=
  ⟨by decide, by decide, by decide, by decide, by decide⟩

/-- C9 (amended): `VerifyConfig` does not look at `BoostTimeout`.  Its result on
any record, accepted or rejected, is the same after `BoostTimeout` is replaced by
any value `b`, negative ones included; so when the record is accepted the
replaced record is accepted too, and `Server` and `Client` build a session from
it. -/
theorem C9_boost_timeout_unchecked {Session Conn : Type}
    (newSession : Option Config → Conn → Bool → Session) (conn : Conn)
    (c : Config) (b : Int) :
    VerifyConfig (some { c with BoostTimeout := b }) = VerifyConfig (some c) ∧
      (VerifyConfig (some c) = Outcome.ok none →
        VerifyConfig (some { c with BoostTimeout := b }) = Outcome.ok none ∧
        Server newSession conn (some { c with BoostTimeout := b }) =
          Outcome.ok (some (newSession (some { c with BoostTimeout := b }) conn false), none) ∧
        Client newSession conn (some { c with BoostTimeout := b }) =
          Outcome.ok (some (newSession (some { c with BoostTimeout := b }) conn true), none)) := by
  have hsame : VerifyConfig (some { c with BoostTimeout := b }) = VerifyConfig (some c) := by
    simp only [VerifyConfig]
  refine ⟨hsame, ?_⟩
  intro h
  have hb : VerifyConfig (some { c with BoostTimeout := b }) = Outcome.ok none :=
    hsame.trans h
  refine ⟨hb, ?_, ?_⟩
  · simp [Server, hb]
  · simp [Client, hb]

/-- C9 (amended) at the default record, which is accepted, and at the rejected
record `hugeFrameConfig`, each with the boost window set to minus one. -/
theorem C9_boost_timeout_unchecked_witness :
    (VerifyConfig (some DefaultConfig) = Outcome.ok none ∧
      VerifyConfig (some { DefaultConfig with BoostTimeout := -1 }) = Outcome.ok none ∧
      Server recordSession 7 (some { DefaultConfig with BoostTimeout := -1 }) =
        Outcome.ok (some (recordSession (some { DefaultConfig with BoostTimeout := -1 })
          7 false), none) ∧
      Client recordSession 7 (some { DefaultConfig with BoostTimeout := -1 }) =
        Outcome.ok (some (recordSession (some { DefaultConfig with BoostTimeout := -1 })
          7 true), none)) ∧
    (VerifyConfig (some hugeFrameConfig) =
        Outcome.ok (some "max frame size must not be larger than 65535") ∧
      VerifyConfig (some { hugeFrameConfig with BoostTimeout := -1 }) =
        VerifyConfig (some hugeFrameConfig)) :=
  ⟨⟨by decide,
      (C9_boost_timeout_unchecked recordSession 7 DefaultConfig (-1)).2 (by decide)⟩,
    ⟨by decide, (C9_boost_timeout_unchecked recordSession 7 hugeFrameConfig (-1)).1⟩⟩

/-- C10: with a nil `config`, `Server` and `Client` return the nil error and the
session `newSession` builds from the default record.  `VerifyConfig` panics on a
nil pointer, and neither constructor panics on any `config`, so the constructors
never hand it one. -/
theorem C10_nil_config_uses_default {Session Conn : Type}
    (newSession : Option Config → Conn → Bool → Session) (conn : Conn) :
    Server newSession conn none =
        Outcome.ok (some (newSession (some DefaultConfig) conn false), none) ∧
      Client newSession conn none =
        Outcome.ok (some (newSession (some DefaultConfig) conn true), none) ∧
      VerifyConfig (some DefaultConfig) = Outcome.ok none ∧
      VerifyConfig none = Outcome.panic ∧
      ∀ config : Option Config,
        Server newSession conn config ≠ Outcome.panic ∧
        Client newSession conn config ≠ Outcome.panic := by
  have h : VerifyConfig (some DefaultConfig) = Outcome.ok none := by decide
  refine ⟨by simp [Server, h], by simp [Client, h], h, rfl, ?_⟩
  intro config
  cases config with
  | none => simp [Server, Client, h]
  | some c =>
    rcases verify_returns c with hc | ⟨e, hc⟩ <;> simp [Server, Client, hc]

/-- C11: `VerifyConfig` reports one error, that of the first violated check in
the fixed order of `orderedChecks`.  Its result is `firstViolation` over that
table; the message of a check of the table is returned exactly when the record
violates that check and no earlier one; a returned message is always the message
of a violated check of the table with no violated check before it; and nil is
returned exactly when no check is violated. -/
theorem C11_first_violated_check (c : Config) :
    VerifyConfig (some c) = Outcome.ok (firstViolation orderedChecks c) ∧
    (∀ (i : Nat) (p : Config → Bool) (m : String), orderedChecks[i]? = some (p, m) →
      (VerifyConfig (some c) = Outcome.ok (some m) ↔
        p c = true ∧
        ∀ (j : Nat) (q : Config → Bool) (n : String),
          j < i → orderedChecks[j]? = some (q, n) → q c = false)) ∧
    (∀ m : String, VerifyConfig (some c) = Outcome.ok (some m) →
      ∃ (i : Nat) (p : Config → Bool), orderedChecks[i]? = some (p, m) ∧ p c = true ∧
        ∀ (j : Nat) (q : Config → Bool) (n : String),
          j < i → orderedChecks[j]? = some (q, n) → q c = false) ∧
    (VerifyConfig (some c) = Outcome.ok none ↔ ∀ p ∈ orderedChecks, p.1 c = false) := by
  have hv := verify_eq_firstViolation c
  have hsome : ∀ m : String, VerifyConfig (some c) = Outcome.ok (some m) ↔
      ∃ (i : Nat) (p : Config → Bool), orderedChecks[i]? = some (p, m) ∧ p c = true ∧
        ∀ (j : Nat) (q : Config → Bool) (n : String),
          j < i → orderedChecks[j]? = some (q, n) → q c = false := by
    intro m
    rw [hv, ← firstViolation_eq_some_iff]
    constructor
    · intro h
      injection h
    · intro h
      rw [h]
  refine ⟨hv, ?_, fun m hm => (hsome m).1 hm, ?_⟩
  · intro i p m hi
    constructor
    · intro h
      obtain ⟨k, q, hk, hq, hbefore⟩ := (hsome m).1 h
      obtain ⟨hik, hpq⟩ := orderedChecks_own_check hi hk
      subst hik
      subst hpq
      exact ⟨hq, hbefore⟩
    · rintro ⟨hp, hbefore⟩
      exact (hsome m).2 ⟨i, p, hi, hp, hbefore⟩
  · rw [hv, ← firstViolation_eq_none_iff]
    constructor
    · intro h
      injection h
    · intro h
      rw [h]

/-- C11 at `manyViolationsConfig`, which violates the fourth, sixth and seventh
check: the message returned is the one of the fourth. -/
theorem C11_first_violated_check_witness :
    orderedChecks[3]? =
        some (fun c => decide (c.MaxFrameSize ≤ 0), "max frame size must be positive") ∧
      manyViolationsConfig.MaxFrameSize ≤ 0 ∧
      manyViolationsConfig.MaxReceiveBuffer ≤ 0 ∧
      manyViolationsConfig.MaxStreamBuffer ≤ 0 ∧
      VerifyConfig (some manyViolationsConfig) =
        Outcome.ok (some "max frame size must be positive") :=
  ⟨rfl, by decide, by decide, by decide,
    ((C11_first_violated_check manyViolationsConfig).2.1 3 _ _ rfl).2
      ⟨by decide, by
        intro j q n hj hq
        interval_cases j <;>
          simp only [orderedChecks, List.getElem?_cons_zero, List.getElem?_cons_succ,
            Option.some.injEq, Prod.mk.injEq] at hq <;>
          obtain ⟨rfl, -⟩ := hq <;> decide⟩⟩

/-- C12: a record accepted by `VerifyConfig` whose `KeepAliveTimeout` is not
negative has `KeepAliveInterval` and `KeepAliveIntervalMax` strictly positive. -/
theorem C12_cadence_positive (c : Config)
    (hAccepted : VerifyConfig (some c) = Outcome.ok none)
    (hTimeout : 0 ≤ c.KeepAliveTimeout) :
    0 < c.KeepAliveInterval ∧ 0 < c.KeepAliveIntervalMax := by
  have h := (verify_nil_iff c).1 hAccepted
  constructor <;> omega

/-- C12 at the default record (timeout 5.5s, interval 20s, bound 30s). -/
theorem C12_cadence_positive_witness :
    VerifyConfig (some DefaultConfig) = Outcome.ok none ∧
      0 ≤ DefaultConfig.KeepAliveTimeout ∧
      0 < DefaultConfig.KeepAliveInterval ∧ 0 < DefaultConfig.KeepAliveIntervalMax :=
  ⟨by decide, by decide, C12_cadence_positive DefaultConfig (by decide) (by decide)⟩

/-- C13: the result of `VerifyConfig` does not depend on `EnableStreamBuffer` or
`BoostTimeout`: two records that agree on the other six fields get the same
result, both nil or the same message; and when the call returns, the record
behind the pointer is the record that was passed, with the error the state-passing
reading returns being the one `VerifyConfig` returns. -/
theorem C13_unread_fields (c d : Config)
    (hInterval : c.KeepAliveInterval = d.KeepAliveInterval)
    (hMax : c.KeepAliveIntervalMax = d.KeepAliveIntervalMax)
    (hTimeout : c.KeepAliveTimeout = d.KeepAliveTimeout)
    (hFrame : c.MaxFrameSize = d.MaxFrameSize)
    (hReceive : c.MaxReceiveBuffer = d.MaxReceiveBuffer)
    (hStream : c.MaxStreamBuffer = d.MaxStreamBuffer) :
    VerifyConfig (some c) = VerifyConfig (some d) ∧
      (VerifyConfigState c).1 = c ∧ (VerifyConfigState d).1 = d ∧
      VerifyConfig (some c) = Outcome.ok (VerifyConfigState c).2 ∧
      VerifyConfig (some d) = Outcome.ok (VerifyConfigState d).2 := by
  have hfst : ∀ x : Config, (VerifyConfigState x).1 = x := by
    intro x
    simp only [VerifyConfigState]
    split_ifs <;> rfl
  have hsnd : ∀ x : Config, VerifyConfig (some x) = Outcome.ok (VerifyConfigState x).2 := by
    intro x
    simp only [VerifyConfig, VerifyConfigState]
    split_ifs <;> rfl
  refine ⟨?_, hfst c, hfst d, hsnd c, hsnd d⟩
  simp only [VerifyConfig, hInterval, hMax, hTimeout, hFrame, hReceive, hStream]

/-- C13 at `hugeFrameConfig` and `hugeFrameOtherKnobs`, which differ in
`EnableStreamBuffer` and `BoostTimeout` only: both get the frame-size error. -/
theorem C13_unread_fields_witness :
    hugeFrameConfig.EnableStreamBuffer ≠ hugeFrameOtherKnobs.EnableStreamBuffer ∧
      hugeFrameConfig.BoostTimeout ≠ hugeFrameOtherKnobs.BoostTimeout ∧
      VerifyConfig (some hugeFrameConfig) =
        Outcome.ok (some "max frame size must not be larger than 65535") ∧
      VerifyConfig (some hugeFrameConfig) = VerifyConfig (some hugeFrameOtherKnobs) ∧
      (VerifyConfigState hugeFrameConfig).1 = hugeFrameConfig ∧
      (VerifyConfigState hugeFrameOtherKnobs).1 = hugeFrameOtherKnobs ∧
      VerifyConfig (some hugeFrameConfig) = Outcome.ok (VerifyConfigState hugeFrameConfig).2 ∧
      VerifyConfig (some hugeFrameOtherKnobs) =
        Outcome.ok (VerifyConfigState hugeFrameOtherKnobs).2 :=
  ⟨by decide, by decide, by decide,
    C13_unread_fields hugeFrameConfig hugeFrameOtherKnobs rfl rfl rfl rfl rfl rfl⟩

end Smux
